import Mathlib

/-
Verification of `src/source/result.h` (grzegorz-grzeda/result): the outcome-kind
enumeration `result_t`, the guarded early-exit constructs `ERR_GOTO`, `ERR_RET`,
`ERR_RET_VOID` and `ERR_RET_RESULT`, and the description lookup
`result_get_string`.
-/

/-- The `result` enumeration from `src/source/result.h` lines 45-54: seven real
outcome kinds followed by the reserved terminal marker `_RESULT_COUNT`.
Constructor order mirrors the C declaration order, so each constructor's C
enumerator value is its position, given by `result.toNat` below. -/
inductive result : Type where
  | RESULT_OK
  | RESULT_ERROR_ARGUMENT_INVALID
  | RESULT_ERROR_MEMORY_NOT_ENOUGH
  | RESULT_ERROR_HARDWARE_NO_DEVICE
  | RESULT_ERROR_HARDWARE_BUSY
  | RESULT_ERROR_HARDWARE_IO
  | RESULT_ERROR_OTHER
  | _RESULT_COUNT
  deriving DecidableEq

/-- The C enumerator value of each `result` constructor (implicit successive
values 0..7 in the header's declaration order). -/
def result.toNat : result → Nat
  | result.RESULT_OK => 0
  | result.RESULT_ERROR_ARGUMENT_INVALID => 1
  | result.RESULT_ERROR_MEMORY_NOT_ENOUGH => 2
  | result.RESULT_ERROR_HARDWARE_NO_DEVICE => 3
  | result.RESULT_ERROR_HARDWARE_BUSY => 4
  | result.RESULT_ERROR_HARDWARE_IO => 5
  | result.RESULT_ERROR_OTHER => 6
  | result._RESULT_COUNT => 7

/-- All enumerators of `result`, in the header's declaration order. -/
def allResults : List result :=
  [ result.RESULT_OK,
    result.RESULT_ERROR_ARGUMENT_INVALID,
    result.RESULT_ERROR_MEMORY_NOT_ENOUGH,
    result.RESULT_ERROR_HARDWARE_NO_DEVICE,
    result.RESULT_ERROR_HARDWARE_BUSY,
    result.RESULT_ERROR_HARDWARE_IO,
    result.RESULT_ERROR_OTHER,
    result._RESULT_COUNT ]

/-- Modelled from the spec: the repository ships only the header
`src/source/result.h`, which documents each kind (lines 46-52) but does not
contain the implementation of `result_get_string`, so the static description
table is modelled here; each kind's description text is taken verbatim from the
header's own per-enumerator documentation, index `i` describing the kind of C
value `i`. -/
def resultDescriptions : List String :=
  [ "OK - The operation was successfull",
    "The provided function argument was invalid",
    "Not enough memory to perform the operation",
    "The hardware failed to appear",
    "The hardware was busy",
    "An transmission hardware error",
    "An undefined error" ]

/-- Modelled from the spec: the implementation of `result_get_string` (declared
at `result.h` line 129) is absent from the sources. Following the header's
contract and spec section 4.1, a value inside the valid range (`0` up to, but
excluding, the terminal marker `_RESULT_COUNT`) is mapped to the static
description string of that kind, and any other integer (the marker itself
included) to the absent indicator `none`, never reading outside the table. The
argument is the integer value of the `result_t` handed over in C, so
out-of-range integers are representable. -/
def result_get_string (r : Int) : Option String :=
  if 0 ≤ r ∧ r < (result.toNat result._RESULT_COUNT : Int) then
    resultDescriptions[r.toNat]?
  else
    none

/-- The control transfer performed by one guarded construct relative to its
enclosing function: fall through to the next statement, jump to a local label,
return a value, or return from a void function. -/
inductive Control (ρ : Type) : Type where
  | next : Control ρ
  | goto : String → Control ρ
  | ret : ρ → Control ρ
  | retVoid : Control ρ

/-- The observable outcome of expanding one guarded construct: the control
transfer performed, whether `RESULT_ASSERT_FAIL_FUNCTION` was invoked on this
path (the hook is empty unless `RESULT_ASSERT` is compiled in, in which case it
is `assert(0)`, `result.h` lines 33-38), and the program state after the
construct, recording the side effects of evaluating the condition expression. -/
structure GuardOutcome (ρ σ : Type) : Type where
  ctl : Control ρ
  hookInvoked : Bool
  state : σ

/-- `ERR_GOTO` from `result.h` lines 63-70: evaluate `(int)(condition)` once
into the local `_ERR_RET_CONDITION`; if it equals `0`, invoke the diagnostic
hook and `goto goto_label`, otherwise fall through. The condition is an
effectful expression `σ → Int × σ`, yielding its value already cast to `int`
together with the state after its evaluation. -/
def ERR_GOTO {ρ σ : Type} (condition : σ → Int × σ) (goto_label : String)
    (s : σ) : GuardOutcome ρ σ :=
  let _cond_eval := condition s
  let _ERR_RET_CONDITION : Int := _cond_eval.1
  if _ERR_RET_CONDITION = 0 then
    ⟨Control.goto goto_label, true, _cond_eval.2⟩
  else
    ⟨Control.next, false, _cond_eval.2⟩

/-- `ERR_RET` from `result.h` lines 81-88: evaluate `(int)(condition)` once into
`_ERR_RET_CONDITION`; if it equals `0`, invoke the diagnostic hook and
`return (return_value)`, otherwise fall through. -/
def ERR_RET {ρ σ : Type} (condition : σ → Int × σ) (return_value : ρ)
    (s : σ) : GuardOutcome ρ σ :=
  let _cond_eval := condition s
  let _ERR_RET_CONDITION : Int := _cond_eval.1
  if _ERR_RET_CONDITION = 0 then
    ⟨Control.ret return_value, true, _cond_eval.2⟩
  else
    ⟨Control.next, false, _cond_eval.2⟩

/-- `ERR_RET_VOID` from `result.h` lines 97-104: evaluate `(int)(condition)`
once into `_ERR_RET_CONDITION`; if it equals `0`, invoke the diagnostic hook and
`return;`, otherwise fall through. -/
def ERR_RET_VOID {ρ σ : Type} (condition : σ → Int × σ) (s : σ) :
    GuardOutcome ρ σ :=
  let _cond_eval := condition s
  let _ERR_RET_CONDITION : Int := _cond_eval.1
  if _ERR_RET_CONDITION = 0 then
    ⟨Control.retVoid, true, _cond_eval.2⟩
  else
    ⟨Control.next, false, _cond_eval.2⟩

/-- The identifier declared by the expansion of `ERR_RET_RESULT`, `result.h`
line 116: `result_t _ERR_RESULT = (result_t)(result);`. -/
def ERR_RET_RESULT_declared_ident : String := "_ERR_RESULT"

/-- The identifier that the guard and the return statement of `ERR_RET_RESULT`
reference, `result.h` lines 117 and 119: `if (_ERRRESULT != RESULT_OK)` and
`return _ERRRESULT;`. -/
def ERR_RET_RESULT_used_ident : String := "_ERRRESULT"

/-- The local scope one expansion of `ERR_RET_RESULT` creates when handed the
checked value `v`: the single declaration the expansion itself makes
(`result.h` line 116). -/
def ERR_RET_RESULT_scope (v : result) : List (String × result) :=
  [(ERR_RET_RESULT_declared_ident, v)]

/-- C1: for every integer in the valid enumerated range, `RESULT_OK` (value 0)
through `RESULT_ERROR_OTHER` (the last real kind) inclusive,
`result_get_string` returns a string — not the absent indicator `none` — and
that string is non-empty. -/
theorem result_get_string_valid_some_nonempty (r : Int)
    (h0 : 0 ≤ r) (h1 : r ≤ (result.toNat result.RESULT_ERROR_OTHER : Int)) :
    result_get_string r ≠ none ∧ result_get_string r ≠ some "" := by
  have h6 : r ≤ (6 : Int) := by
    have he : (result.toNat result.RESULT_ERROR_OTHER : Int) = 6 := by decide
    rw [he] at h1
    exact h1
  interval_cases r <;> exact ⟨by decide, by decide⟩

/-- C1 witness at `RESULT_OK`'s value 0. -/
theorem result_get_string_valid_some_nonempty_witness :
    result_get_string 0 ≠ none ∧ result_get_string 0 ≠ some "" :=
  result_get_string_valid_some_nonempty 0 (by decide) (by decide)

/-- C2: for the reserved terminal marker `_RESULT_COUNT` (value 7) and for every
integer outside the valid range, `result_get_string` returns the absent
indicator `none`; the model is a total function over a fixed table, so no crash,
no out-of-table read and no fabricated description is possible. -/
theorem result_get_string_invalid_none (r : Int)
    (h : r < 0 ∨ (result.toNat result.RESULT_ERROR_OTHER : Int) < r) :
    result_get_string r = none := by
  have h6 : r < 0 ∨ (6 : Int) < r := by
    have he : (result.toNat result.RESULT_ERROR_OTHER : Int) = 6 := by decide
    rw [he] at h
    exact h
  have hn : ¬(0 ≤ r ∧ r < (result.toNat result._RESULT_COUNT : Int)) := by
    have hc : (result.toNat result._RESULT_COUNT : Int) = 7 := by decide
    rw [hc]
    omega
  unfold result_get_string
  rw [if_neg hn]

/-- C2 witness at the terminal marker value 7 (the value of `_RESULT_COUNT`). -/
theorem result_get_string_invalid_none_witness :
    result_get_string 7 = none :=
  result_get_string_invalid_none 7 (Or.inr (by decide))

/-- C3: the claim's pass-through does not hold of the code as written: the guard
and the return statement of `ERR_RET_RESULT` reference the identifier
`_ERRRESULT`, which differs from the identifier `_ERR_RESULT` that the
expansion declares, so for every checked value the reference is unbound in the
scope the expansion creates and the macro fails to compile; the pass-through its
own documentation (`result.h` lines 107-113) describes never happens. -/
theorem ERR_RET_RESULT_guard_ident_unbound :
    ERR_RET_RESULT_used_ident ≠ ERR_RET_RESULT_declared_ident ∧
    ∀ v : result,
      (ERR_RET_RESULT_scope v).lookup ERR_RET_RESULT_used_ident = none := by
  refine ⟨by decide, fun v => ?_⟩
  rfl

/-- C4: when the condition evaluates to a falsy (zero) value, `ERR_GOTO`
transfers control to exactly the caller-specified label and does not fall
through to the statement after the construct. -/
theorem ERR_GOTO_falsy_jumps_to_label {ρ σ : Type} (condition : σ → Int × σ)
    (goto_label : String) (s : σ) (h : (condition s).1 = 0) :
    (@ERR_GOTO ρ σ condition goto_label s).ctl = Control.goto goto_label ∧
    (@ERR_GOTO ρ σ condition goto_label s).ctl ≠ Control.next := by
  unfold ERR_GOTO
  simp [h]

/-- C4 witness: a condition that concretely evaluates to 0 jumps to the label
"fail" and does not fall through. -/
theorem ERR_GOTO_falsy_jumps_to_label_witness :
    (@ERR_GOTO Int Nat (fun s => (0, s)) "fail" 0).ctl = Control.goto "fail" ∧
    (@ERR_GOTO Int Nat (fun s => (0, s)) "fail" 0).ctl ≠ Control.next :=
  ERR_GOTO_falsy_jumps_to_label (fun s => (0, s)) "fail" 0 rfl

/-- C5: when the condition evaluates to a falsy (zero) value, `ERR_RET` makes
the enclosing function return exactly the caller-specified fallback value, with
no fall-through to any further statement of that function. -/
theorem ERR_RET_falsy_returns_value {ρ σ : Type} (condition : σ → Int × σ)
    (return_value : ρ) (s : σ) (h : (condition s).1 = 0) :
    (ERR_RET condition return_value s).ctl = Control.ret return_value ∧
    (ERR_RET condition return_value s).ctl ≠ Control.next := by
  unfold ERR_RET
  simp [h]

/-- C5 witness: a condition that concretely evaluates to 0 returns the fallback
value 42 and does not fall through. -/
theorem ERR_RET_falsy_returns_value_witness :
    (ERR_RET (fun s : Nat => ((0 : Int), s)) (42 : Int) 0).ctl = Control.ret 42 ∧
    (ERR_RET (fun s : Nat => ((0 : Int), s)) (42 : Int) 0).ctl ≠ Control.next :=
  ERR_RET_falsy_returns_value (fun s => (0, s)) 42 0 rfl

/-- C6: when the condition evaluates to a truthy (nonzero) value, none of
`ERR_GOTO`, `ERR_RET`, `ERR_RET_VOID` alters control flow: each falls through to
the next statement, with no jump, no return, and no invocation of the
diagnostic hook. -/
theorem guarded_truthy_falls_through {ρ σ : Type} (condition : σ → Int × σ)
    (goto_label : String) (return_value : ρ) (s : σ)
    (h : (condition s).1 ≠ 0) :
    (@ERR_GOTO ρ σ condition goto_label s).ctl = Control.next ∧
    (@ERR_GOTO ρ σ condition goto_label s).hookInvoked = false ∧
    (ERR_RET condition return_value s).ctl = Control.next ∧
    (ERR_RET condition return_value s).hookInvoked = false ∧
    (@ERR_RET_VOID ρ σ condition s).ctl = Control.next ∧
    (@ERR_RET_VOID ρ σ condition s).hookInvoked = false := by
  unfold ERR_GOTO ERR_RET ERR_RET_VOID
  simp [h]

/-- C6 witness: a condition that concretely evaluates to 1 lets all three
constructs fall through without invoking the hook. -/
theorem guarded_truthy_falls_through_witness :
    (@ERR_GOTO Int Nat (fun s => (1, s)) "fail" 0).ctl = Control.next ∧
    (@ERR_GOTO Int Nat (fun s => (1, s)) "fail" 0).hookInvoked = false ∧
    (ERR_RET (fun s : Nat => ((1 : Int), s)) (42 : Int) 0).ctl = Control.next ∧
    (ERR_RET (fun s : Nat => ((1 : Int), s)) (42 : Int) 0).hookInvoked = false ∧
    (@ERR_RET_VOID Int Nat (fun s => (1, s)) 0).ctl = Control.next ∧
    (@ERR_RET_VOID Int Nat (fun s => (1, s)) 0).hookInvoked = false :=
  guarded_truthy_falls_through (fun s => (1, s)) "fail" (42 : Int) 0 (by decide)

/-- C7: the description strings `result_get_string` returns over the seven
valid values 0..6 are pairwise distinct; in particular the success sentinel's
description (index 0) differs from every failure kind's description. -/
theorem result_get_string_descriptions_distinct :
    ((List.range 7).map (fun i => result_get_string (i : Int))).Nodup := by
  decide

/-- C8: the enumeration consists of exactly 8 enumerators — 7 real outcome
kinds plus the single reserved terminal marker `_RESULT_COUNT` — carrying the
distinct, non-overlapping C values 0 through 7; the listing is exhaustive, and
among the 7 real kinds exactly one, `RESULT_OK` (value 0), denotes success. -/
theorem result_enumeration_shape :
    allResults.length = 8 ∧
    (∀ r : result, r ∈ allResults) ∧
    allResults.map result.toNat = [0, 1, 2, 3, 4, 5, 6, 7] ∧
    allResults.count result._RESULT_COUNT = 1 ∧
    (allResults.filter (fun r => decide (r ≠ result._RESULT_COUNT))).length = 7 ∧
    (allResults.filter
      (fun r => decide (r ≠ result._RESULT_COUNT))).count result.RESULT_OK = 1 := by
  refine ⟨by decide, ?_, by decide, by decide, by decide, by decide⟩
  intro r
  cases r <;> decide

/-- C9: each guarded construct evaluates its condition expression exactly once,
in the truthy and in the falsy case alike: over every effectful condition, the
state each construct ends in is the state after a single evaluation of the
condition from the entry state. -/
theorem guarded_single_evaluation {ρ σ : Type} (condition : σ → Int × σ)
    (goto_label : String) (return_value : ρ) (s : σ) :
    (@ERR_GOTO ρ σ condition goto_label s).state = (condition s).2 ∧
    (ERR_RET condition return_value s).state = (condition s).2 ∧
    (@ERR_RET_VOID ρ σ condition s).state = (condition s).2 := by
  unfold ERR_GOTO ERR_RET ERR_RET_VOID
  by_cases h : (condition s).1 = 0 <;> simp [h]

/-- C10: in each of the three constructs the failure branch is taken precisely
when the condition's value, as an `int`, equals 0; every nonzero value —
negative values included — counts as truthy and execution falls through. -/
theorem guarded_failure_iff_zero {ρ σ : Type} (condition : σ → Int × σ)
    (goto_label : String) (return_value : ρ) (s : σ) :
    ((@ERR_GOTO ρ σ condition goto_label s).ctl = Control.goto goto_label ↔
      (condition s).1 = 0) ∧
    ((ERR_RET condition return_value s).ctl = Control.ret return_value ↔
      (condition s).1 = 0) ∧
    ((@ERR_RET_VOID ρ σ condition s).ctl = Control.retVoid ↔
      (condition s).1 = 0) := by
  unfold ERR_GOTO ERR_RET ERR_RET_VOID
  by_cases h : (condition s).1 = 0 <;> simp [h]
